import Mathlib

/-!
Verification of the Yandex Disk public-resource client
(`yandex_disk_project/disk_api/utils.py`).

The module under study has two units:

* `ResourceRequestParams` — a dataclass of query parameters for the listing
  endpoint, with nested enumerations `SortOptions`, `PreviewSizeOptions` and
  `FieldOptions`, and a `prepared_dict` property that drops `None`-valued
  fields and serializes a tuple of field selectors to a comma-joined string.
* `ResourceOperations` — `get_public_resource_dict` (fills in default field
  selectors, issues a GET, renames the `_embedded` key of the response) and
  `download_files` (a sequential per-file download loop with a per-item
  `try/except`).

Python dictionaries are embedded as association lists `List (String × V)`
with first-match lookup; a list represents an actual Python dict exactly
when its keys are distinct (`pyWF`).  Network and filesystem effects are
embedded as explicit oracles (`Transport`) and explicit state (`DLState`);
URL construction (percent-encoding, base-URL joining) is folded into the
oracle's indexing, since no property below depends on the URL text itself.
-/

namespace YandexDisk

/-- First-match lookup in an association list: `d[k]` of a Python dict
(`None` standing for a `KeyError`). -/
def pyLookup {V : Type} : List (String × V) → String → Option V
  | [], _ => none
  | kv :: rest, k => if kv.1 == k then some kv.2 else pyLookup rest k

/-- `k in d` for a Python dict. -/
def pyContains {V : Type} (d : List (String × V)) (k : String) : Bool :=
  (pyLookup d k).isSome

/-- `d[k] = v` for a Python dict: replace the first binding of `k` in place,
or append a new binding at the end. -/
def pySet {V : Type} : List (String × V) → String → V → List (String × V)
  | [], k, v => [(k, v)]
  | kv :: rest, k, v => if kv.1 == k then (k, v) :: rest else kv :: pySet rest k v

/-- The removal part of `d.pop(k)` for a Python dict: drop the first binding
of `k` (the value returned by `pop` is recovered with `pyLookup`). -/
def pyPopRemove {V : Type} : List (String × V) → String → List (String × V)
  | [], _ => []
  | kv :: rest, k => if kv.1 == k then rest else kv :: pyPopRemove rest k

/-- An association list stands for a Python dict exactly when its keys are
distinct. -/
def pyWF {V : Type} (d : List (String × V)) : Prop :=
  (d.map Prod.fst).Nodup

/-- `ResourceRequestParams.SortOptions` (`StrEnum`). -/
inductive ResourceRequestParams.SortOptions where
  | CREATED
  | MODIFIED
  | NAME
  | PATH
  | SIZE
deriving DecidableEq, Repr

/-- The `StrEnum` value of a sort option. -/
def ResourceRequestParams.SortOptions.value : ResourceRequestParams.SortOptions → String
  | .CREATED => "created"
  | .MODIFIED => "modified"
  | .NAME => "name"
  | .PATH => "path"
  | .SIZE => "size"

/-- `SortOptions.desc`: the sort key prefixed with a minus sign. -/
def ResourceRequestParams.SortOptions.desc (s : ResourceRequestParams.SortOptions) : String :=
  "-" ++ s.value

/-- `ResourceRequestParams.PreviewSizeOptions` (`StrEnum`). -/
inductive ResourceRequestParams.PreviewSizeOptions where
  | S
  | M
  | L
  | XL
  | XXL
  | XXXL
deriving DecidableEq, Repr

/-- The `StrEnum` value of a preview size. -/
def ResourceRequestParams.PreviewSizeOptions.value :
    ResourceRequestParams.PreviewSizeOptions → String
  | .S => "S"
  | .M => "M"
  | .L => "L"
  | .XL => "XL"
  | .XXL => "XXL"
  | .XXXL => "XXXL"

/-- `PreviewSizeOptions.resolution(width, height)`: the four-way `match` on
`(width, height)` of the source, a `ValueError` embedded as `Except.error`. -/
def ResourceRequestParams.PreviewSizeOptions.resolution
    (width : Option Int := none) (height : Option Int := none) : Except String String :=
  match width, height with
  | some w, some h => .ok (toString w ++ "x" ++ toString h)
  | some w, none => .ok (toString w ++ "x")
  | none, some h => .ok ("x" ++ toString h)
  | none, none =>
      .error
        "Invalid input format, expected \x27<integer>, <integer>\x27, \x27<integer>, None\x27, or \x27None, <integer>\x27"

/-- `ResourceRequestParams.FieldOptions` (`StrEnum`): every field selector of
the source enumeration. -/
inductive ResourceRequestParams.FieldOptions where
  | ANTIVIRUS_STATUS
  | COMMENT_IDS
  | CREATED
  | CUSTOM_PROPERTIES
  | EMBEDDED
  | EXIF
  | FILE
  | MD5
  | MEDIA_TYPE
  | MIME_TYPE
  | MODIFIED
  | NAME
  | ORIGIN_PATH
  | OWNER
  | PATH
  | PREVIEW
  | PUBLIC_KEY
  | PUBLIC_URL
  | RESOURCE_ID
  | REVISION
  | SHA256
  | SIZE
  | SIZES
  | TYPE
  | VIEWS_COUNT
  | EMBEDDED_ITEMS
  | EMBEDDED_LIMIT
  | EMBEDDED_OFFSET
  | EMBEDDED_PATH
  | EMBEDDED_PUBLIC_KEY
  | EMBEDDED_SORT
  | EMBEDDED_TOTAL
  | EMBEDDED_ITEMS_ANTIVIRUS_STATUS
  | EMBEDDED_ITEMS_COMMENT_IDS
  | EMBEDDED_ITEMS_CREATED
  | EMBEDDED_ITEMS_CUSTOM_PROPERTIES
  | EMBEDDED_ITEMS_EXIF
  | EMBEDDED_ITEMS_FILE
  | EMBEDDED_ITEMS_MD5
  | EMBEDDED_ITEMS_MEDIA_TYPE
  | EMBEDDED_ITEMS_MIME_TYPE
  | EMBEDDED_ITEMS_MODIFIED
  | EMBEDDED_ITEMS_NAME
  | EMBEDDED_ITEMS_PATH
  | EMBEDDED_ITEMS_PREVIEW
  | EMBEDDED_ITEMS_PUBLIC_KEY
  | EMBEDDED_ITEMS_PUBLIC_URL
  | EMBEDDED_ITEMS_RESOURCE_ID
  | EMBEDDED_ITEMS_REVISION
  | EMBEDDED_ITEMS_SHA256
  | EMBEDDED_ITEMS_SIZE
  | EMBEDDED_ITEMS_SIZES
  | EMBEDDED_ITEMS_TYPE
deriving DecidableEq, Repr

/-- The `StrEnum` value of a field selector: a dotted path; the members
built in the source by concatenation (`EMBEDDED + ".items"`, …) are written
out concatenated. -/
def ResourceRequestParams.FieldOptions.value : ResourceRequestParams.FieldOptions → String
  | .ANTIVIRUS_STATUS => ".antivirus_status"
  | .COMMENT_IDS => ".comment_ids"
  | .CREATED => ".created"
  | .CUSTOM_PROPERTIES => ".custom_properties"
  | .EMBEDDED => "._embedded"
  | .EXIF => ".exif"
  | .FILE => ".file"
  | .MD5 => ".md5"
  | .MEDIA_TYPE => ".media_type"
  | .MIME_TYPE => ".mime_type"
  | .MODIFIED => ".modified"
  | .NAME => ".name"
  | .ORIGIN_PATH => ".origin_path"
  | .OWNER => ".owner"
  | .PATH => ".path"
  | .PREVIEW => ".preview"
  | .PUBLIC_KEY => ".public_key"
  | .PUBLIC_URL => ".public_url"
  | .RESOURCE_ID => ".resource_id"
  | .REVISION => ".revision"
  | .SHA256 => ".sha256"
  | .SIZE => ".size"
  | .SIZES => ".sizes"
  | .TYPE => ".type"
  | .VIEWS_COUNT => ".views_count"
  | .EMBEDDED_ITEMS => "._embedded.items"
  | .EMBEDDED_LIMIT => "._embedded.limit"
  | .EMBEDDED_OFFSET => "._embedded.offset"
  | .EMBEDDED_PATH => "._embedded.path"
  | .EMBEDDED_PUBLIC_KEY => "._embedded.public_key"
  | .EMBEDDED_SORT => "._embedded.sort"
  | .EMBEDDED_TOTAL => "._embedded.total"
  | .EMBEDDED_ITEMS_ANTIVIRUS_STATUS => "._embedded.items.antivirus_status"
  | .EMBEDDED_ITEMS_COMMENT_IDS => "._embedded.items.comment_ids"
  | .EMBEDDED_ITEMS_CREATED => "._embedded.items.created"
  | .EMBEDDED_ITEMS_CUSTOM_PROPERTIES => "._embedded.items.custom_properties"
  | .EMBEDDED_ITEMS_EXIF => "._embedded.items.exif"
  | .EMBEDDED_ITEMS_FILE => "._embedded.items.file"
  | .EMBEDDED_ITEMS_MD5 => "._embedded.items.md5"
  | .EMBEDDED_ITEMS_MEDIA_TYPE => "._embedded.items.media_type"
  | .EMBEDDED_ITEMS_MIME_TYPE => "._embedded.items.mime_type"
  | .EMBEDDED_ITEMS_MODIFIED => "._embedded.items.modified"
  | .EMBEDDED_ITEMS_NAME => "._embedded.items.name"
  | .EMBEDDED_ITEMS_PATH => "._embedded.items.path"
  | .EMBEDDED_ITEMS_PREVIEW => "._embedded.items.preview"
  | .EMBEDDED_ITEMS_PUBLIC_KEY => "._embedded.items.public_key"
  | .EMBEDDED_ITEMS_PUBLIC_URL => "._embedded.items.public_url"
  | .EMBEDDED_ITEMS_RESOURCE_ID => "._embedded.items.resource_id"
  | .EMBEDDED_ITEMS_REVISION => "._embedded.items.revision"
  | .EMBEDDED_ITEMS_SHA256 => "._embedded.items.sha256"
  | .EMBEDDED_ITEMS_SIZE => "._embedded.items.size"
  | .EMBEDDED_ITEMS_SIZES => "._embedded.items.sizes"
  | .EMBEDDED_ITEMS_TYPE => "._embedded.items.type"

/-- `FieldsType = Union[FieldOptions, tuple[FieldOptions, ...]]`. -/
inductive ResourceRequestParams.FieldsType where
  | single : ResourceRequestParams.FieldOptions → ResourceRequestParams.FieldsType
  | tuple : List ResourceRequestParams.FieldOptions → ResourceRequestParams.FieldsType
deriving DecidableEq, Repr

/-- A value of the prepared-query dictionary (`FilteredDictType` values). -/
inductive PValue where
  | s : String → PValue
  | i : Int → PValue
  | b : Bool → PValue
  | fs : ResourceRequestParams.FieldsType → PValue
  | ps : ResourceRequestParams.PreviewSizeOptions → PValue
  | so : ResourceRequestParams.SortOptions → PValue
deriving DecidableEq, Repr

/-- The `ResourceRequestParams` dataclass, defaults included (note the
non-`None` default of `limit`). -/
structure ResourceRequestParams where
  public_key : String
  fields : Option ResourceRequestParams.FieldsType := none
  limit : Option Int := some 1000000000000000000
  offset : Option Int := none
  path : Option String := none
  preview_crop : Option Bool := none
  preview_size : Option ResourceRequestParams.PreviewSizeOptions := none
  sort : Option ResourceRequestParams.SortOptions := none
deriving DecidableEq, Repr

/-- `ResourceRequestParams.prepared_dict`: `asdict` in dataclass field order
with `None` values dropped, then, when `fields` is a tuple, the `fields`
entry overwritten with the comma-join of the selectors' values each with its
first character removed (`field.value[1:]`). -/
def ResourceRequestParams.prepared_dict (p : ResourceRequestParams) : List (String × PValue) :=
  let result := List.filterMap (fun kv => Option.map (fun v => (kv.1, v)) kv.2)
    [("public_key", some (PValue.s p.public_key)),
     ("fields", p.fields.map PValue.fs),
     ("limit", p.limit.map PValue.i),
     ("offset", p.offset.map PValue.i),
     ("path", p.path.map PValue.s),
     ("preview_crop", p.preview_crop.map PValue.b),
     ("preview_size", p.preview_size.map PValue.ps),
     ("sort", p.sort.map PValue.so)]
  match p.fields with
  | some (ResourceRequestParams.FieldsType.tuple fields) =>
      pySet result "fields"
        (PValue.s (String.intercalate "," (fields.map (fun f => f.value.drop 1))))
  | _ => result

/-- The default field selectors installed by `get_public_resource_dict` when
the caller left `fields` unset, in source order. -/
def defaultFields : List ResourceRequestParams.FieldOptions :=
  [.NAME, .PUBLIC_URL, .EMBEDDED_ITEMS_NAME, .EMBEDDED_ITEMS_TYPE,
   .EMBEDDED_ITEMS_MEDIA_TYPE, .EMBEDDED_ITEMS_PUBLIC_URL, .PATH]

/-- The post-processing step of `get_public_resource_dict`:
`if "_embedded" in data_json: data_json["embedded"] = data_json.pop("_embedded")`. -/
def renameEmbedded {V : Type} (data_json : List (String × V)) : List (String × V) :=
  match pyLookup data_json "_embedded" with
  | some v => pySet (pyPopRemove data_json "_embedded") "embedded" v
  | none => data_json

/-- Everything observable about one call to `get_public_resource_dict`:
the params object as the call leaves it (the dataclass is mutated in
place), the query mapping the GET is issued with, and the returned
mapping. -/
structure FetchOutcome (V : Type) where
  newParams : ResourceRequestParams
  query : List (String × PValue)
  result : List (String × V)
deriving Repr

/-- `ResourceOperations.get_public_resource_dict`: install `defaultFields`
when `params.fields is None`, issue the GET with `params.prepared_dict`
(URL-encoding folded into the oracle), and rename `_embedded` in the
response.  The upstream JSON body is the argument `upstream`; transport and
decoding errors propagate in the source and are outside this function. -/
def ResourceOperations.get_public_resource_dict {V : Type}
    (params : ResourceRequestParams) (upstream : List (String × V)) : FetchOutcome V :=
  let params2 : ResourceRequestParams :=
    match params.fields with
    | none => { params with fields := some (ResourceRequestParams.FieldsType.tuple defaultFields) }
    | some _ => params
  { newParams := params2
    query := params2.prepared_dict
    result := renameEmbedded upstream }

/-- The effect oracles of `download_files`, one per kind of I/O the source
performs.  `metaGet pk path` is `requests.get(full_url)` on the download
endpoint for `(public_key, path)` — the outer `Except` is an exception raised
by the GET itself (outside the `try`), the inner one the outcome of
`response.json()` (evaluated inside the `try`).  `contentGet href` is the
GET of the signed URL, `writeFile path bytes` the local write; both run
inside the `try`. -/
structure Transport where
  metaGet : String → String → Except String (Except String (List (String × String)))
  contentGet : String → Except String (List Nat)
  writeFile : String → List Nat → Except String Unit

/-- The externally visible state of the download loop: the files written
(local path, bytes) and the error-log lines emitted. -/
structure DLState where
  files : List (String × List Nat)
  errorLog : List String
deriving DecidableEq, Repr

/-- `os.path.join` for the two-argument, slash-separated cases the source
exercises. -/
def osPathJoin (a b : String) : String :=
  if b.data.head? = some ('/' : Char) then b
  else if a = "" || a.data.getLast? = some ('/' : Char) then a ++ b
  else a ++ "/" ++ b

/-- The body of the `try` block of `download_files` for one file:
`response.json()["href"]`, the content GET, and the write to
`os.path.join(FILES_DIR, file_path[1:])`; returns the local path and bytes
written, or the caught exception (a missing `href` is a `KeyError`). -/
def tryDownload (t : Transport) (filesDir : String)
    (response : Except String (List (String × String))) (file_path : String) :
    Except String (String × List Nat) :=
  match response with
  | .error e => .error e
  | .ok respJson =>
      match pyLookup respJson "href" with
      | none => .error "\x27href\x27"
      | some href =>
          match t.contentGet href with
          | .error e => .error e
          | .ok content =>
              let file_local_path := osPathJoin filesDir (file_path.drop 1)
              match t.writeFile file_local_path content with
              | .error e => .error e
              | .ok _ => .ok (file_local_path, content)

/-- One iteration of the `download_files` loop: the metadata GET runs
outside the `try`, so its exception propagates (`Except.error`); any failure
inside `tryDownload` is caught and appended to the error log. -/
def downloadOne (t : Transport) (filesDir : String) (public_key : String)
    (st : DLState) (file_path : String) : Except String DLState :=
  match t.metaGet public_key file_path with
  | .error e => .error e
  | .ok response =>
      match tryDownload t filesDir response file_path with
      | .ok (l, c) => .ok { st with files := pySet st.files l c }
      | .error e =>
          .ok { st with errorLog :=
                  st.errorLog ++ ["Failed to download file " ++ file_path ++ ": " ++ e] }

/-- `ResourceOperations.download_files`: the sequential loop over
`files_paths`.  Returns the final state and, when an uncaught exception
aborted the loop, that exception (the state reached so far is what is left
on disk and in the log). -/
def ResourceOperations.download_files (t : Transport) (filesDir : String) (public_key : String) :
    List String → DLState → DLState × Option String
  | [], st => (st, none)
  | p :: rest, st =>
      match downloadOne t filesDir public_key st p with
      | .ok st2 => ResourceOperations.download_files t filesDir public_key rest st2
      | .error e => (st, some e)

/-! ### Lemmas about the Python-dict model -/

theorem pyLookup_pySet_self {V : Type} (d : List (String × V)) (k : String) (v : V) :
    pyLookup (pySet d k v) k = some v := by
  induction d with
  | nil => simp [pySet, pyLookup]
  | cons kv rest ih =>
      cases h : kv.1 == k with
      | true => simp [pySet, pyLookup, h]
      | false => simp [pySet, pyLookup, h, ih]

theorem pyLookup_pySet_ne {V : Type} (d : List (String × V)) (k k' : String) (v : V)
    (hne : k' ≠ k) : pyLookup (pySet d k v) k' = pyLookup d k' := by
  induction d with
  | nil =>
      simp [pySet, pyLookup, Ne.symm hne]
  | cons kv rest ih =>
      cases h : kv.1 == k with
      | true =>
          have hk : kv.1 = k := by simpa using h
          simp [pySet, pyLookup, h, hk, Ne.symm hne]
      | false => simp [pySet, pyLookup, h, ih]

theorem pyLookup_eq_none_of_not_mem {V : Type} (d : List (String × V)) (k : String)
    (h : k ∉ d.map Prod.fst) : pyLookup d k = none := by
  induction d with
  | nil => rfl
  | cons kv rest ih =>
      simp only [List.map_cons, List.mem_cons, not_or] at h
      have hb : (kv.1 == k) = false := by simpa using Ne.symm h.1
      simp [pyLookup, hb, ih h.2]

theorem pyLookup_pyPopRemove_self {V : Type} (d : List (String × V)) (k : String)
    (hwf : pyWF d) : pyLookup (pyPopRemove d k) k = none := by
  induction d with
  | nil => rfl
  | cons kv rest ih =>
      rw [pyWF, List.map_cons, List.nodup_cons] at hwf
      cases h : kv.1 == k with
      | true =>
          have hk : kv.1 = k := by simpa using h
          have : k ∉ rest.map Prod.fst := hk ▸ hwf.1
          simpa [pyPopRemove, h] using pyLookup_eq_none_of_not_mem rest k this
      | false => simp [pyPopRemove, pyLookup, h, ih hwf.2]

theorem drop_one_of_leading_slash (rest : String) : ("/" ++ rest).drop 1 = rest := by
  rw [String.drop_eq]
  rfl

/-! ### Claim theorems -/

/-- C2, counterexample: with only `public_key` set, the prepared query does
contain the optional key `limit` — `limit` has a non-`None` default of
`10^18`, so the blanket statement "no key for any optional field" is false. -/
theorem C2_counterexample :
    pyContains (ResourceRequestParams.prepared_dict { public_key := "k" }) "limit" = true := by
  decide

/-- C2, amended: with only `public_key` set, the prepared query is exactly
the `public_key` entry together with the default `limit` entry
(`10^18`); every other optional field (`fields`, `offset`, `path`,
`preview_crop`, `preview_size`, `sort`) is omitted. -/
theorem C2_prepared_dict_of_defaults (pk : String) :
    ResourceRequestParams.prepared_dict { public_key := pk }
      = [("public_key", PValue.s pk), ("limit", PValue.i 1000000000000000000)] := rfl

/-- C4: `PreviewSizeOptions.resolution` yields `"100x"`, `"x200"` and
`"100x200"` on the three sample inputs, and raises (`Except.error`) exactly
when both `width` and `height` are `None`; being a pure function of its two
arguments in this embedding, it involves no network interaction. -/
theorem C4_resolution :
    ResourceRequestParams.PreviewSizeOptions.resolution (some 100) none = .ok "100x"
    ∧ ResourceRequestParams.PreviewSizeOptions.resolution none (some 200) = .ok "x200"
    ∧ ResourceRequestParams.PreviewSizeOptions.resolution (some 100) (some 200) = .ok "100x200"
    ∧ ∀ w h : Option Int,
        (∃ e, ResourceRequestParams.PreviewSizeOptions.resolution w h = .error e)
          ↔ (w = none ∧ h = none) := by
  refine ⟨rfl, rfl, rfl, fun w h => ?_⟩
  cases w <;> cases h <;>
    simp [ResourceRequestParams.PreviewSizeOptions.resolution]

/-- C6: when `fields` is a non-empty tuple of selectors, the `fields` entry
of the prepared query is the selectors' values, each with its first
character removed, comma-joined in input order; the first character of every
selector's value is the separator `"."`. -/
theorem C6_fields_tuple_serialization (p : ResourceRequestParams)
    (fs : List ResourceRequestParams.FieldOptions)
    (h : p.fields = some (ResourceRequestParams.FieldsType.tuple fs)) (hne : fs ≠ []) :
    pyLookup p.prepared_dict "fields"
      = some (PValue.s (String.intercalate "," (fs.map (fun f => f.value.drop 1))))
    ∧ ∀ g : ResourceRequestParams.FieldOptions, g.value.take 1 = "." := by
  constructor
  · rw [ResourceRequestParams.prepared_dict]
    simp only [h]
    exact pyLookup_pySet_self _ _ _
  · intro g
    cases g <;> rfl

/-- C6 witness at a two-selector tuple. -/
theorem C6_witness :
    pyLookup (ResourceRequestParams.prepared_dict
        { public_key := "k",
          fields := some (ResourceRequestParams.FieldsType.tuple
            [.NAME, .EMBEDDED_ITEMS_TYPE]) }) "fields"
      = some (PValue.s "name,_embedded.items.type") := by
  have h := (C6_fields_tuple_serialization
      { public_key := "k",
        fields := some (ResourceRequestParams.FieldsType.tuple [.NAME, .EMBEDDED_ITEMS_TYPE]) }
      [.NAME, .EMBEDDED_ITEMS_TYPE] rfl (by decide)).1
  exact h

/-- C9: when `fields` is a single selector (not a tuple), `prepared_dict`
passes it through unchanged — the `isinstance(..., tuple)` branch does not
fire — so the entry keeps its full dotted value, leading `"."` included. -/
theorem C9_single_field_not_stripped (p : ResourceRequestParams)
    (f : ResourceRequestParams.FieldOptions)
    (h : p.fields = some (ResourceRequestParams.FieldsType.single f)) :
    pyLookup p.prepared_dict "fields"
      = some (PValue.fs (ResourceRequestParams.FieldsType.single f))
    ∧ f.value.take 1 = "." := by
  constructor
  · rw [ResourceRequestParams.prepared_dict]
    simp [h, pyLookup]
  · cases f <;> rfl

/-- C9 witness at the `FILE` selector. -/
theorem C9_witness :
    pyLookup (ResourceRequestParams.prepared_dict
        { public_key := "k",
          fields := some (ResourceRequestParams.FieldsType.single .FILE) }) "fields"
      = some (PValue.fs (ResourceRequestParams.FieldsType.single .FILE)) :=
  (C9_single_field_not_stripped
    { public_key := "k", fields := some (ResourceRequestParams.FieldsType.single .FILE) }
    .FILE rfl).1

/-- C5: on a well-formed upstream response holding `"_embedded"`, the mapping
returned by `get_public_resource_dict` holds its value under `"embedded"`
and no longer holds `"_embedded"`; a response without `"_embedded"` is
returned unchanged. -/
theorem C5_embedded_renamed {V : Type} (params : ResourceRequestParams)
    (upstream : List (String × V)) (hwf : pyWF upstream) :
    (∀ v, pyLookup upstream "_embedded" = some v →
      pyLookup (ResourceOperations.get_public_resource_dict params upstream).result "embedded"
          = some v
      ∧ pyContains (ResourceOperations.get_public_resource_dict params upstream).result
          "_embedded" = false)
    ∧ (pyLookup upstream "_embedded" = none →
      (ResourceOperations.get_public_resource_dict params upstream).result = upstream) := by
  constructor
  · intro v hv
    have hres : (ResourceOperations.get_public_resource_dict params upstream).result
        = pySet (pyPopRemove upstream "_embedded") "embedded" v := by
      simp [ResourceOperations.get_public_resource_dict, renameEmbedded, hv]
    refine ⟨by rw [hres]; exact pyLookup_pySet_self _ _ _, ?_⟩
    rw [hres, pyContains, pyLookup_pySet_ne _ _ _ _ (by decide),
      pyLookup_pyPopRemove_self upstream "_embedded" hwf]
    rfl
  · intro hv
    simp [ResourceOperations.get_public_resource_dict, renameEmbedded, hv]

/-- C5 witness: a concrete two-entry response with `"_embedded"`. -/
theorem C5_witness :
    pyLookup (ResourceOperations.get_public_resource_dict (V := Nat) { public_key := "k" }
        [("_embedded", 5), ("name", 1)]).result "embedded" = some 5
    ∧ pyContains (ResourceOperations.get_public_resource_dict (V := Nat) { public_key := "k" }
        [("_embedded", 5), ("name", 1)]).result "_embedded" = false :=
  (C5_embedded_renamed { public_key := "k" } [("_embedded", 5), ("name", 1)]
    (by unfold pyWF; decide)).1 5 rfl

/-- C10: when the upstream response holds both `"_embedded"` and
`"embedded"`, the returned mapping holds the `"_embedded"` value under
`"embedded"`, discarding the value originally there. -/
theorem C10_embedded_overwritten {V : Type} (params : ResourceRequestParams)
    (upstream : List (String × V)) (vu ve : V)
    (h1 : pyLookup upstream "_embedded" = some vu)
    (h2 : pyLookup upstream "embedded" = some ve) (hne : ve ≠ vu) :
    pyLookup (ResourceOperations.get_public_resource_dict params upstream).result "embedded"
        = some vu
    ∧ pyLookup (ResourceOperations.get_public_resource_dict params upstream).result "embedded"
        ≠ some ve := by
  have hres : (ResourceOperations.get_public_resource_dict params upstream).result
      = pySet (pyPopRemove upstream "_embedded") "embedded" vu := by
    simp [ResourceOperations.get_public_resource_dict, renameEmbedded, h1]
  have hl : pyLookup (ResourceOperations.get_public_resource_dict params upstream).result
      "embedded" = some vu := by
    rw [hres]; exact pyLookup_pySet_self _ _ _
  exact ⟨hl, by rw [hl]; intro hc; exact hne (Option.some.inj hc).symm⟩

/-- C10 witness: both keys present, `"embedded"` ends up with the
`"_embedded"` value `2`, not its original value `1`. -/
theorem C10_witness :
    pyLookup (ResourceOperations.get_public_resource_dict (V := Nat) { public_key := "k" }
        [("embedded", 1), ("_embedded", 2)]).result "embedded" = some 2 :=
  (C10_embedded_overwritten { public_key := "k" } [("embedded", 1), ("_embedded", 2)]
    2 1 rfl rfl (by decide)).1

/-- C7: when the caller left `fields` unset, the issued query's `fields`
entry is exactly the serialized fixed default selector set — name, public
URL, path, and the embedded items' name, type, media type and public URL —
and when the caller did set `fields`, the query is built from the params as
given, with no substitution. -/
theorem C7_default_fields {V : Type} (params : ResourceRequestParams)
    (upstream : List (String × V)) :
    (params.fields = none →
      pyLookup (ResourceOperations.get_public_resource_dict params upstream).query "fields"
        = some (PValue.s
            "name,public_url,_embedded.items.name,_embedded.items.type,_embedded.items.media_type,_embedded.items.public_url,path"))
    ∧ (∀ ft, params.fields = some ft →
      (ResourceOperations.get_public_resource_dict params upstream).query
        = params.prepared_dict) := by
  constructor
  · intro h
    have hq : (ResourceOperations.get_public_resource_dict params upstream).query
        = ResourceRequestParams.prepared_dict
            { params with fields := some (ResourceRequestParams.FieldsType.tuple defaultFields) } := by
      simp [ResourceOperations.get_public_resource_dict, h]
    rw [hq, ResourceRequestParams.prepared_dict]
    simp only []
    rw [pyLookup_pySet_self]
    rfl
  · intro ft hft
    simp [ResourceOperations.get_public_resource_dict, hft]

/-- C7 witness: default-constructed params produce the default `fields`
query entry. -/
theorem C7_witness :
    pyLookup (ResourceOperations.get_public_resource_dict (V := Nat) { public_key := "k" }
        []).query "fields"
      = some (PValue.s
          "name,public_url,_embedded.items.name,_embedded.items.type,_embedded.items.media_type,_embedded.items.public_url,path") :=
  (C7_default_fields { public_key := "k" } []).1 rfl

/-- C8: `get_public_resource_dict` mutates its argument: when `fields` was
`None` on entry, the params object ends the call with `fields` equal to the
default selector tuple, every other field unchanged. -/
theorem C8_params_mutation {V : Type} (params : ResourceRequestParams)
    (upstream : List (String × V)) (h : params.fields = none) :
    (ResourceOperations.get_public_resource_dict params upstream).newParams.fields
        = some (ResourceRequestParams.FieldsType.tuple defaultFields)
    ∧ (ResourceOperations.get_public_resource_dict params upstream).newParams.public_key
        = params.public_key
    ∧ (ResourceOperations.get_public_resource_dict params upstream).newParams.limit
        = params.limit
    ∧ (ResourceOperations.get_public_resource_dict params upstream).newParams.offset
        = params.offset
    ∧ (ResourceOperations.get_public_resource_dict params upstream).newParams.path
        = params.path
    ∧ (ResourceOperations.get_public_resource_dict params upstream).newParams.preview_crop
        = params.preview_crop
    ∧ (ResourceOperations.get_public_resource_dict params upstream).newParams.preview_size
        = params.preview_size
    ∧ (ResourceOperations.get_public_resource_dict params upstream).newParams.sort
        = params.sort := by
  simp [ResourceOperations.get_public_resource_dict, h]

/-- C8 witness: the default-constructed params object is visibly mutated. -/
theorem C8_witness :
    (ResourceOperations.get_public_resource_dict (V := Nat) { public_key := "k" }
        []).newParams.fields
      = some (ResourceRequestParams.FieldsType.tuple defaultFields) :=
  (C8_params_mutation { public_key := "k" } [] rfl).1

/-- A transport on which every request succeeds: one fixed signed URL and
one-byte content. -/
def tOk : Transport where
  metaGet := fun _ _ => .ok (.ok [("href", "h")])
  contentGet := fun _ => .ok [7]
  writeFile := fun _ _ => .ok ()

/-- A transport whose download-URL request itself raises for path `/b`
(and only there). -/
def tMetaFailB : Transport where
  metaGet := fun _ p => if p = "/b" then .error "boom" else .ok (.ok [("href", "h")])
  contentGet := fun _ => .ok [7]
  writeFile := fun _ _ => .ok ()

/-- A transport whose download-URL response for path `/b` (and only there)
lacks the `href` key. -/
def tNoHrefB : Transport where
  metaGet := fun _ p => if p = "/b" then .ok (.ok []) else .ok (.ok [("href", "h")])
  contentGet := fun _ => .ok [7]
  writeFile := fun _ _ => .ok ()

/-- C1, counterexample: in the batch `/a`, `/b`, `/c` where only `/b` fails
and its failure is a network error on the download-URL request itself
(`requests.get(full_url)` sits before the `try`), the exception escapes:
`/a` is written but `/c` is not, no failure is logged for `/b`, and the
call aborts — against the claim that any single-file failure is caught,
logged, and leaves the rest of the batch processed. -/
theorem C1_counterexample :
    ResourceOperations.download_files tMetaFailB "files" "k" ["/a", "/b", "/c"] ⟨[], []⟩
      = (⟨[("files/a", [7])], []⟩, some "boom") := rfl

/-- C1, amended: per-item isolation holds for every failure raised inside
the `try` block (missing `href` in the decoded response, content-fetch
error, write error): in a batch `a`, `b`, `c` where `a` and `c` succeed and
`b` fails inside the `try`, `a` and `c` are written and exactly one failure
is logged, for `b`.  A failure of the download-URL request itself is not
isolated (see the counterexample). -/
theorem C1_per_item_isolation (t : Transport) (filesDir pk a b c : String)
    (ra rb rc : Except String (List (String × String)))
    (la lc : String) (ba bc : List Nat) (eb : String)
    (hma : t.metaGet pk a = .ok ra) (hta : tryDownload t filesDir ra a = .ok (la, ba))
    (hmb : t.metaGet pk b = .ok rb) (htb : tryDownload t filesDir rb b = .error eb)
    (hmc : t.metaGet pk c = .ok rc) (htc : tryDownload t filesDir rc c = .ok (lc, bc))
    (hne : la ≠ lc) :
    ResourceOperations.download_files t filesDir pk [a, b, c] ⟨[], []⟩
      = (⟨[(la, ba), (lc, bc)], ["Failed to download file " ++ b ++ ": " ++ eb]⟩, none) := by
  simp [ResourceOperations.download_files, downloadOne, hma, hta, hmb, htb, hmc, htc,
    pySet, hne]

/-- C1 witness: `/b` fails inside the `try` (its response has no `href`);
`/a` and `/c` are written, one `KeyError` is logged for `/b`. -/
theorem C1_witness :
    ResourceOperations.download_files tNoHrefB "files" "k" ["/a", "/b", "/c"] ⟨[], []⟩
      = (⟨[("files/a", [7]), ("files/c", [7])],
          ["Failed to download file /b: \x27href\x27"]⟩, none) :=
  C1_per_item_isolation tNoHrefB "files" "k" "/a" "/b" "/c"
    (.ok [("href", "h")]) (.ok []) (.ok [("href", "h")])
    "files/a" "files/c" [7] [7] "\x27href\x27"
    rfl rfl rfl rfl rfl rfl (by decide)

/-- C3, counterexample: for the path `ab.txt`, which does not begin with a
path separator, the code still removes the first character
(`file_path[1:]`): the bytes land in `files/b.txt`, not `files/ab.txt` —
against the claim that such a path keeps its name intact. -/
theorem C3_counterexample :
    ResourceOperations.download_files tOk "files" "k" ["ab.txt"] ⟨[], []⟩
        = (⟨[("files/b.txt", [7])], []⟩, none)
    ∧ pyLookup (ResourceOperations.download_files tOk "files" "k" ["ab.txt"] ⟨[], []⟩).1.files
        "files/ab.txt" = none :=
  ⟨rfl, rfl⟩

/-- C3, amended: the bytes fetched for a path are written under the files
directory at the name obtained by removing the path's FIRST character
(`file_path[1:]`) — for a path beginning with `/` that is exactly the
leading separator, but a path that does not begin with a separator also
loses its first character. -/
theorem C3_local_file_name (t : Transport) (filesDir : String)
    (response : Except String (List (String × String))) (file_path l : String)
    (content : List Nat)
    (h : tryDownload t filesDir response file_path = .ok (l, content)) :
    l = osPathJoin filesDir (file_path.drop 1)
    ∧ ∀ rest, file_path = "/" ++ rest → l = osPathJoin filesDir rest := by
  have hl : l = osPathJoin filesDir (file_path.drop 1) := by
    cases response with
    | error e => simp [tryDownload] at h
    | ok respJson =>
        cases hj : pyLookup respJson "href" with
        | none => simp [tryDownload, hj] at h
        | some href =>
            cases hc : t.contentGet href with
            | error e => simp [tryDownload, hj, hc] at h
            | ok cont =>
                cases hw : t.writeFile (osPathJoin filesDir (file_path.drop 1)) cont with
                | error e => simp [tryDownload, hj, hc, hw] at h
                | ok u => simp [tryDownload, hj, hc, hw] at h; exact h.1.symm
  refine ⟨hl, fun rest hr => ?_⟩
  rw [hl, hr, drop_one_of_leading_slash]

/-- C3 witness: a successful download of `/a.txt` lands at
`files/a.txt` — the leading separator stripped. -/
theorem C3_witness :
    ("files/a.txt" : String) = osPathJoin "files" (String.drop "/a.txt" 1) :=
  (C3_local_file_name tOk "files" (.ok [("href", "h")]) "/a.txt" "files/a.txt" [7] rfl).1

end YandexDisk
